import Mathlib

/-!
Shallow embedding of `src/create_bulk_template.py`, the Flash Express bulk
shipments Excel template generator.  The script builds an in-memory workbook
of three worksheets (Shipments, Choices, Instructions), wires dropdown data
validations from Shipments columns to fixed cell ranges on the Choices
sheet, seeds two sample rows, and writes one file.

Modelling decisions (all value-relevant parts of the source are embedded;
purely cosmetic styling - fonts, fills, column widths - carries no claim and
is omitted):
  * a worksheet cell store is the ordered list of `(row, column) := value`
    writes the script performs; `cellAt` reads the last write to an address,
    matching openpyxl assignment semantics;
  * a `DataValidation` mirrors the openpyxl object the script builds: its
    type, `formula1`, the error title/body, and the rectangular range it is
    added to (the script formats `f"{col}{start}:{col}{end}"`, a one-column
    range, kept here structurally as column letter plus row bounds);
  * the builder consults no run-dependent input; `RunEnv` packages the
    run-dependent ambient state (working directory, wall-clock time) a run
    could in principle observe, so that determinism is a theorem rather
    than a convention;
  * the script run is embedded in two phases, matching Python execution
    order: the module-level imports (source lines 6-11) run at load time,
    before the `__main__` try/except at lines 307-315 is reached, so a
    failing import propagates uncaught; only when the imports succeed does
    the `__main__` handler map the builder outcome (success, ImportError,
    or any other exception raised by the call inside the try block) to the
    lines printed.
-/

namespace FlashExpress

/-- A one-column rectangular cell range `colstart:colend`, as produced by the
format string in `create_dropdown` (`f"{column_letter}{start_row}:..."`). -/
structure CellRange where
  col : String
  startRow : Nat
  endRow : Nat
deriving DecidableEq

/-- Whether a range constrains a given row of its column. -/
def CellRange.coversRow (r : CellRange) (row : Nat) : Bool :=
  decide (r.startRow ≤ row) && decide (row ≤ r.endRow)

/-- Embedding of the openpyxl `DataValidation` object as configured by
`create_dropdown` in the source: list type, a `formula1` source reference,
error body and title, and the ranges it was added to. -/
structure DataValidation where
  type : String
  formula1 : String
  showDropDown : Bool
  error : String
  errorTitle : String
  ranges : List CellRange
deriving DecidableEq

/-- The 19 column headers written to row 1 of the Shipments sheet
(source lines 27-47). -/
def headers : List String :=
  [ "Client Email",
    "Recipient Name",
    "Recipient Phone",
    "Package Description",
    "Package Value (EGP)",
    "From Street",
    "From Details",
    "From City",
    "From Zone",
    "To Street",
    "To Details",
    "To City",
    "To Zone",
    "Payment Method",
    "Amount to Collect",
    "Is Large Order",
    "Package Weight (kg)",
    "Package Dimensions (LxWxH cm)",
    "Notes" ]

/-- The ordered dropdown choice categories (source lines 62-180).  Python
dicts preserve insertion order, so the source dict is an ordered association
list: category name to ordered value list. -/
def choices_data : List (String × List String) :=
  [ ("Client_Emails",
      [ "admin@flash.com",
        "testclient@flash.com",
        "client@flash.com" ]),
    ("Payment_Methods",
      [ "COD",
        "Transfer",
        "Wallet" ]),
    ("Cities",
      [ "Cairo",
        "Alexandria",
        "Giza",
        "Sharm El Sheikh",
        "Hurghada",
        "Luxor",
        "Aswan",
        "Port Said",
        "Suez",
        "Ismailia" ]),
    ("Cairo_Zones",
      [ "Nasr City",
        "Heliopolis",
        "Maadi",
        "Zamalek",
        "Downtown",
        "Dokki",
        "Mohandessin",
        "New Cairo",
        "6th of October",
        "Shoubra" ]),
    ("Alexandria_Zones",
      [ "Downtown",
        "Sidi Gaber",
        "Montaza",
        "Smouha",
        "Miami",
        "Gleem",
        "Sporting",
        "Stanley",
        "Camp Cesar",
        "Baccos" ]),
    ("Giza_Zones",
      [ "Dokki",
        "Mohandessin",
        "Agouza",
        "Haram",
        "6th of October",
        "Sheikh Zayed",
        "Smart Village",
        "Faisal",
        "Imbaba",
        "Bulaq" ]),
    ("Package_Descriptions",
      [ "Electronics - Smartphone",
        "Electronics - Laptop",
        "Electronics - Tablet",
        "Electronics - Headphones",
        "Electronics - Camera",
        "Clothing - T-Shirt",
        "Clothing - Jeans",
        "Clothing - Shoes",
        "Clothing - Dress",
        "Clothing - Jacket",
        "Books - Novel",
        "Books - Textbook",
        "Books - Magazine",
        "Home & Garden - Kitchen Appliances",
        "Home & Garden - Furniture",
        "Home & Garden - Decor",
        "Food & Beverages - Snacks",
        "Food & Beverages - Drinks",
        "Documents - Legal Papers",
        "Documents - Certificates",
        "Gifts - Birthday Gift",
        "Gifts - Wedding Gift",
        "Medical - Medication",
        "Beauty - Cosmetics",
        "Sports - Equipment" ]),
    ("Package_Values",
      [ "50", "100", "150", "200", "250", "300", "400",
        "500", "750", "1000", "1500", "2000", "3000", "5000" ]),
    ("Large_Order_Options",
      [ "TRUE",
        "FALSE" ]),
    ("Street_Examples",
      [ "123 Main St",
        "456 Oak Ave",
        "789 Pine St",
        "321 Cedar Ln",
        "654 Elm Rd",
        "987 Maple Dr",
        "147 Birch Way",
        "258 Willow Ct",
        "369 Palm Blvd",
        "741 Rose Ave" ]),
    ("Building_Details",
      [ "Apt 101",
        "Floor 3",
        "Building 5",
        "Suite 201",
        "Unit 12",
        "Villa 25",
        "Office 304",
        "Shop 15",
        "Penthouse",
        "Ground Floor" ]) ]

/-- Category at position `i` (0-based) of `choices_data`. -/
def nthCat (i : Nat) : String × List String :=
  choices_data.getD i ("", [])

/-- Embedding of `create_dropdown` (source lines 200-205): build a list-type
validation whose `formula1` is `"Choices." ++ choices_range`, with the fixed
error body and title, added to the one-column range
`column_letter ++ start_row ++ ":" ++ column_letter ++ end_row`. -/
def create_dropdown (column_letter : String) (start_row end_row : Nat)
    (choices_range : String) : DataValidation :=
  { type := "list",
    formula1 := "Choices." ++ choices_range,
    showDropDown := true,
    error := "Please select a value from the dropdown list",
    errorTitle := "Invalid Entry",
    ranges := [⟨column_letter, start_row, end_row⟩] }

/-- `end_row = 1000` (source line 208): last constrained bulk-entry row. -/
def end_row : Nat := 1000

/-- The seven `create_dropdown` calls of the source (lines 211-227), in
source order: Client Email (A), Payment Method (N), From City (H),
To City (L), Package Description (D), Package Value (E), Large Order (P). -/
def shipmentsValidations : List DataValidation :=
  [ create_dropdown "A" 2 end_row "$A$2:$A$4",
    create_dropdown "N" 2 end_row "$B$2:$B$4",
    create_dropdown "H" 2 end_row "$C$2:$C$11",
    create_dropdown "L" 2 end_row "$C$2:$C$11",
    create_dropdown "D" 2 end_row "$G$2:$G$26",
    create_dropdown "E" 2 end_row "$H$2:$H$15",
    create_dropdown "P" 2 end_row "$I$2:$I$3" ]

/-- The two sample rows written to Shipments rows 2 and 3
(source lines 230-243); every entry is a Python string literal. -/
def sample_data : List (List String) :=
  [ [ "testclient@flash.com", "John Doe", "+201234567890", "Electronics - Smartphone",
      "500", "123 Main St", "Apt 101", "Cairo", "Nasr City",
      "456 Oak Ave", "Building 5", "Alexandria", "Downtown", "COD",
      "520", "FALSE", "0.5", "15x10x5", "Sample shipment 1" ],
    [ "testclient@flash.com", "Jane Smith", "+201987654321", "Clothing - T-Shirt",
      "150", "123 Main St", "Apt 101", "Cairo", "Nasr City",
      "789 Pine St", "Floor 3", "Giza", "Dokki", "Transfer",
      "0", "FALSE", "0.3", "20x15x2", "Sample shipment 2" ] ]

/-- Python `category.replace("_", " ")` for the one-character pattern used
by the source: map each underscore character to a space. -/
def pyReplaceUnderscore (s : String) : String :=
  ⟨s.data.map (fun ch => if ch = '_' then ' ' else ch)⟩

/-- The sequence of cell writes to the Shipments sheet: headers at
`(1, col)` for `col = 1..19` (source lines 50-51, `enumerate(headers, 1)`),
then the sample rows at `(2, col)` and `(3, col)` (source lines 245-247). -/
def shipmentsCellList : List ((Nat × Nat) × String) :=
  (List.enumFrom 1 headers).map (fun p => ((1, p.1), p.2)) ++
  (List.enumFrom 2 sample_data).flatMap (fun rp =>
    (List.enumFrom 1 rp.2).map (fun cp => ((rp.1, cp.1), cp.2)))

/-- The sequence of cell writes to the Choices sheet (source lines 183-197):
for category `i` (columns counted from 1), its display name (underscores
replaced by spaces) at `(1, i)` and its values at rows `2..` of column `i`
(`enumerate(choices, 2)`). -/
def choicesCellList : List ((Nat × Nat) × String) :=
  (List.enumFrom 1 choices_data).flatMap (fun cp =>
    ((1, cp.1), pyReplaceUnderscore cp.2.1) ::
      (List.enumFrom 2 cp.2.2).map (fun vp => ((vp.1, cp.1), vp.2)))

/-- The instruction lines written to column A of the Instructions sheet
(source lines 253-284), rows 1.. in order. -/
def instructions : List String :=
  [ "FLASH EXPRESS BULK SHIPMENTS TEMPLATE",
    "",
    "INSTRUCTIONS:",
    "1. Use the \x27Shipments\x27 sheet to enter your bulk shipment data",
    "2. Most columns have dropdown menus - click the arrow to select from predefined options",
    "3. The \x27Choices\x27 sheet contains all the dropdown options - you can modify these as needed",
    "",
    "REQUIRED FIELDS:",
    "• Client Email - Must be a valid registered client email",
    "• Recipient Name - Full name of the person receiving the package",
    "• Recipient Phone - Phone number in format +201234567890",
    "• Package Description - Brief description of package contents",
    "• Package Value - Monetary value of the package in EGP",
    "• From/To Address Fields - Complete address information",
    "• Payment Method - COD, Transfer, or Wallet",
    "",
    "NOTES:",
    "• For COD shipments, \x27Amount to Collect\x27 = Package Value + Shipping Fee",
    "• For Transfer shipments, \x27Amount to Collect\x27 can be 0 if no additional amount needed",
    "• For Wallet shipments, \x27Amount to Collect\x27 should typically be 0",
    "• Is Large Order: TRUE for packages requiring special handling",
    "• Package Weight in kilograms (e.g., 0.5, 1.2, 2.0)",
    "• Package Dimensions in LxWxH format in centimeters (e.g., 15x10x5)",
    "",
    "AFTER COMPLETING:",
    "1. Save this file",
    "2. Upload it to the Flash Express bulk shipment import feature",
    "3. Review the preview before confirming the import",
    "",
    "For support, contact: admin@flash.com" ]

/-- Cell writes to the Instructions sheet: `enumerate(instructions, 1)`,
each line at `(row, 1)`. -/
def instructionsCellList : List ((Nat × Nat) × String) :=
  (List.enumFrom 1 instructions).map (fun p => ((p.1, 1), p.2))

/-- Read the value of cell `(r, c)` from a write list: last write wins
(openpyxl cell assignment semantics). -/
def cellAt (ws : List ((Nat × Nat) × String)) (r c : Nat) : Option String :=
  ((ws.filter (fun e => decide (e.1 = (r, c)))).getLast?).map (fun e => e.2)

/-- A worksheet: its tab title, its cell writes, and the data validations
added to it. -/
structure Worksheet where
  title : String
  cells : List ((Nat × Nat) × String)
  dataValidations : List DataValidation
deriving DecidableEq

/-- The Shipments worksheet as the source builds it. -/
def shipments_sheet : Worksheet :=
  { title := "Shipments",
    cells := shipmentsCellList,
    dataValidations := shipmentsValidations }

/-- The Choices worksheet as the source builds it (no validations of its own). -/
def choices_sheet : Worksheet :=
  { title := "Choices",
    cells := choicesCellList,
    dataValidations := [] }

/-- The Instructions worksheet as the source builds it. -/
def instructions_sheet : Worksheet :=
  { title := "Instructions",
    cells := instructionsCellList,
    dataValidations := [] }

/-- A workbook: its sheets in creation order (the default sheet is removed
at source line 18 before any named sheet is created) and the active sheet
(set to the Shipments sheet at source line 295). -/
structure Workbook where
  sheets : List Worksheet
  active : Worksheet
deriving DecidableEq

/-- Run-dependent ambient state a run could in principle observe (working
directory, wall-clock time).  The source consults none of it: all content is
hard-coded literals. -/
structure RunEnv where
  cwd : String
  epochTime : Nat
deriving DecidableEq

/-- Embedding of `create_bulk_shipments_template` (source lines 13-305): the
constructed workbook.  The builder takes the ambient run state only to make
explicit that the result does not depend on it. -/
def create_bulk_shipments_template (_env : RunEnv) : Workbook :=
  { sheets := [shipments_sheet, choices_sheet, instructions_sheet],
    active := shipments_sheet }

/-- The name of the output file (source line 298). -/
def filename : String := "Flash_Express_Bulk_Shipments_Template.xlsx"

/-- Outcome of one invocation of the builder at the Python level: success,
an `ImportError` (the spreadsheet library is missing), or any other
exception, each carrying its message. -/
inductive PyError where
  | importErr (msg : String)
  | otherErr (msg : String)
deriving DecidableEq

/-- Outcome of the module-level imports (source lines 6-11).  Python runs
them at module load, before any line of the `__main__` block; a missing
spreadsheet library surfaces here, not inside the later try block. -/
inductive ImportStatus where
  | ok
  | failure (msg : String)
deriving DecidableEq

/-- Lines printed by the `__main__` block for a given outcome of the
`create_bulk_shipments_template()` call inside its try block, embedding the
success prints (source lines 300-305) and the two `except` arms (source
lines 310-315).  The `importErr` arm embeds the handler code as written;
for a library missing at load time control never reaches this handler. -/
def mainOutput (outcome : Except PyError Workbook) : List String :=
  match outcome with
  | .ok _ =>
      [ "✅ Template created successfully: " ++ filename,
        "📋 The template includes:",
        "   • Shipments sheet with dropdown menus",
        "   • Choices sheet with all dropdown options",
        "   • Instructions sheet with detailed guidance",
        "   • Sample data rows for reference" ]
  | .error (.importErr e) =>
      [ "❌ Missing required libraries. Please install them with:",
        "pip install pandas openpyxl",
        "Error: " ++ e ]
  | .error (.otherErr e) =>
      [ "❌ Error creating template: " ++ e ]

/-- The whole script run, in Python execution order: module load first runs
the imports (source lines 6-11); only if they succeed does control reach
the `__main__` try/except, which invokes the builder once and handles every
outcome of that call.  An import failure is raised before the try block
exists, so it propagates uncaught: `Except.error` models the exception
escaping the script as a traceback. -/
def runScript (imports : ImportStatus) (outcome : Except PyError Workbook) :
    Except String (List String) :=
  match imports with
  | .failure msg => Except.error msg
  | .ok => Except.ok (mainOutput outcome)

/-- openpyxl `get_column_letter`, restricted to the single-letter columns
1..26, the only ones this script uses: 1 is A, 2 is B, ... -/
def get_column_letter (n : Nat) : String :=
  String.singleton (Char.ofNat (64 + n))

/-- Column index of a single-letter column: inverse of `get_column_letter`
on A..Z (A is 1). -/
def letterColumnIndex (s : String) : Nat :=
  match s.data with
  | [ch] => ch.toNat - 64
  | _ => 0

/-- The absolute source-range string on the Choices sheet that exactly bounds
the populated values of category `i` (0-based): column letter of position
`i + 1`, rows 2 through `1 + item count`.  This is the range the spec says
each dropdown must reference. -/
def sourceRangeOfCategory (i : Nat) : String :=
  "$" ++ get_column_letter (i + 1) ++ "$2:$" ++
    get_column_letter (i + 1) ++ "$" ++ toString (1 + (nthCat i).2.length)

/-- Whether some dropdown validation references category `i` as its source. -/
def categoryReferenced (i : Nat) : Bool :=
  shipmentsValidations.any
    (fun dv => dv.formula1 == "Choices." ++ sourceRangeOfCategory i)

/-- The distinct Shipments columns that carry a dropdown validation, in
first-application order. -/
def constrainedColumns : List String :=
  ((shipmentsValidations.flatMap (fun dv => dv.ranges)).map
    (fun r => r.col)).dedup

/-- A cell address absent from every write of a list reads as `none`. -/
theorem cellAt_eq_none (ws : List ((Nat × Nat) × String)) (r c : Nat)
    (h : ∀ e ∈ ws, e.1 ≠ (r, c)) : cellAt ws r c = none := by
  have hf : ws.filter (fun e => decide (e.1 = (r, c))) = [] :=
    List.filter_eq_nil_iff.mpr (fun a ha => by simp [h a ha])
  simp [cellAt, hf]

/-- C1: every dropdown validation on the Shipments sheet references a source
range on Choices that exactly covers the populated rows of some category:
rows 2 through `1 + item count`, in the column whose letter matches that
category's position in the ordered category list; and the bound categories
have the stated item counts (Client Emails 3, Payment Methods 3, Cities 10,
Package Descriptions 25, Package Values 14, Large Order Options 2). -/
theorem dropdown_source_ranges_exact :
    (∀ dv ∈ shipmentsValidations, ∃ i ∈ List.range choices_data.length,
      dv.formula1 = "Choices." ++ sourceRangeOfCategory i) ∧
    (nthCat 0).2.length = 3 ∧ (nthCat 1).2.length = 3 ∧
    (nthCat 2).2.length = 10 ∧ (nthCat 6).2.length = 25 ∧
    (nthCat 7).2.length = 14 ∧ (nthCat 8).2.length = 2 := by
  decide

/-- Witness for C1 at the first validation (Client Email, column A). -/
theorem dropdown_source_ranges_exact_witness :
    ∃ i ∈ List.range choices_data.length,
      (create_dropdown "A" 2 end_row "$A$2:$A$4").formula1 =
        "Choices." ++ sourceRangeOfCategory i :=
  dropdown_source_ranges_exact.1
    (create_dropdown "A" 2 end_row "$A$2:$A$4") (by decide)

/-- C2 counterexample: the claim says the Shipments sheet has 6 constrained
columns, but the seven `create_dropdown` calls target 7 distinct columns
(A, N, H, L, D, E, P), so the number of dropdown-constrained columns is
not 6. -/
theorem six_constrained_columns_false :
    ¬ constrainedColumns.length = 6 := by
  decide

/-- C2 (amended): dropdown list validations are applied to each of the
7 constrained columns (A, N, H, L, D, E, P), every validation covering
exactly the rectangular range rows 2 through 1000 inclusive of its single
column, and row 1001 of every column is unconstrained (no validation range
includes row 1001). -/
theorem dropdown_ranges_cover_rows_2_to_1000 :
    constrainedColumns = ["A", "N", "H", "L", "D", "E", "P"] ∧
    (∀ dv ∈ shipmentsValidations, ∃ c ∈ constrainedColumns,
      dv.ranges = [⟨c, 2, 1000⟩]) ∧
    (∀ dv ∈ shipmentsValidations, ∀ r ∈ dv.ranges,
      (∀ row, 2 ≤ row → row ≤ 1000 → r.coversRow row = true) ∧
      r.coversRow 1001 = false) := by
  have hse : ∀ dv ∈ shipmentsValidations, ∀ r ∈ dv.ranges,
      r.startRow = 2 ∧ r.endRow = 1000 := by decide
  refine ⟨by decide, by decide, ?_⟩
  intro dv hdv r hr
  refine ⟨?_, ?_⟩
  · intro row h2 h1000
    simp [CellRange.coversRow, (hse dv hdv r hr).1, (hse dv hdv r hr).2,
      h2, h1000]
  · simp [CellRange.coversRow, (hse dv hdv r hr).2]

/-- Witness for C2 (amended), at the first validation, row 500 and
row 1001. -/
theorem dropdown_ranges_cover_rows_2_to_1000_witness :
    (∃ c ∈ constrainedColumns,
      (create_dropdown "A" 2 end_row "$A$2:$A$4").ranges = [⟨c, 2, 1000⟩]) ∧
    CellRange.coversRow ⟨"A", 2, 1000⟩ 500 = true ∧
    CellRange.coversRow ⟨"A", 2, 1000⟩ 1001 = false := by
  refine ⟨dropdown_ranges_cover_rows_2_to_1000.2.1 _ (by decide), ?_, ?_⟩
  · exact (dropdown_ranges_cover_rows_2_to_1000.2.2
      (create_dropdown "A" 2 end_row "$A$2:$A$4") (by decide)
      ⟨"A", 2, 1000⟩ (by decide)).1 500 (by decide) (by decide)
  · exact (dropdown_ranges_cover_rows_2_to_1000.2.2
      (create_dropdown "A" 2 end_row "$A$2:$A$4") (by decide)
      ⟨"A", 2, 1000⟩ (by decide)).2

/-- C3: the workbook holds exactly the three sheets `Shipments`, `Choices`,
`Instructions` (in that creation order), and the active sheet is the
Shipments sheet, whatever the ambient run state. -/
theorem workbook_sheets_and_active :
    ∀ env : RunEnv,
      (create_bulk_shipments_template env).sheets.map Worksheet.title =
        ["Shipments", "Choices", "Instructions"] ∧
      (create_bulk_shipments_template env).sheets.length = 3 ∧
      (create_bulk_shipments_template env).active = shipments_sheet ∧
      (create_bulk_shipments_template env).active.title = "Shipments" ∧
      (create_bulk_shipments_template env).active ∈
        (create_bulk_shipments_template env).sheets := by
  intro env
  exact ⟨rfl, rfl, rfl, rfl, List.mem_cons_self _ _⟩

/-- C4: row 1 of the Shipments sheet holds exactly the 19 headers, in order,
in columns 1 through 19 - `Client Email` in A1 through `Notes` in column
19 - and no other cell of row 1 is populated (column 0 does not exist and
columns past 19 read empty). -/
theorem shipments_header_row :
    headers.length = 19 ∧
    cellAt shipmentsCellList 1 1 = some "Client Email" ∧
    cellAt shipmentsCellList 1 19 = some "Notes" ∧
    (∀ c ∈ List.range' 1 19, cellAt shipmentsCellList 1 c = headers.get? (c - 1)) ∧
    (∀ c, c = 0 ∨ 19 < c → cellAt shipmentsCellList 1 c = none) := by
  have hcols : ∀ e ∈ shipmentsCellList, 1 ≤ e.1.2 ∧ e.1.2 ≤ 19 := by decide
  refine ⟨by decide, by decide, by decide, by decide, ?_⟩
  intro c hc
  apply cellAt_eq_none
  intro e he heq
  have hb := hcols e he
  rw [heq] at hb
  rcases hc with h0 | hgt
  · omega
  · omega

/-- Witness for C4 at columns 7 (in range) and 25 (out of range). -/
theorem shipments_header_row_witness :
    cellAt shipmentsCellList 1 7 = headers.get? 6 ∧
    cellAt shipmentsCellList 1 25 = none :=
  ⟨shipments_header_row.2.2.2.1 7 (by decide),
   shipments_header_row.2.2.2.2 25 (Or.inr (by decide))⟩

/-- C5: on the Choices sheet every category occupies one column in category
order: the display name (underscores replaced by spaces) sits in row 1 of
the positionally corresponding column, and the category values fill rows 2
through `N + 1` contiguously, each row holding exactly the corresponding
list entry; Cities has exactly 10 values, Package Values exactly 14, and
cell A1 reads `Client Emails`. -/
theorem choices_columns_exact :
    choices_data.length = 11 ∧
    cellAt choicesCellList 1 1 = some "Client Emails" ∧
    (nthCat 2).2.length = 10 ∧
    (nthCat 7).2.length = 14 ∧
    (∀ i ∈ List.range choices_data.length,
      cellAt choicesCellList 1 (i + 1) = some (pyReplaceUnderscore (nthCat i).1) ∧
      ∀ j ∈ List.range (nthCat i).2.length,
        cellAt choicesCellList (j + 2) (i + 1) = (nthCat i).2.get? j) := by
  decide

/-- Witness for C5 at the Cities column (position 3): header and first
value. -/
theorem choices_columns_exact_witness :
    cellAt choicesCellList 1 3 = some (pyReplaceUnderscore (nthCat 2).1) ∧
    cellAt choicesCellList 2 3 = (nthCat 2).2.get? 0 :=
  ⟨(choices_columns_exact.2.2.2.2 2 (by decide)).1,
   (choices_columns_exact.2.2.2.2 2 (by decide)).2 0 (by decide)⟩

/-- C6: every value the sample rows 2 and 3 place in a dropdown-bound
Shipments column is a member of the choice list that column's validation
references: for each validation and each of its ranges, the sample cell in
that column belongs to the category whose exact source range the
validation's `formula1` names. -/
theorem sample_rows_satisfy_dropdowns :
    ∀ dv ∈ shipmentsValidations, ∀ r ∈ dv.ranges, ∀ row ∈ [2, 3],
      ∃ i ∈ List.range choices_data.length,
        dv.formula1 = "Choices." ++ sourceRangeOfCategory i ∧
        ∃ v ∈ (nthCat i).2,
          cellAt shipmentsCellList row (letterColumnIndex r.col) = some v := by
  decide

/-- Witness for C6 at the Payment Method validation (column N), sample
row 2. -/
theorem sample_rows_satisfy_dropdowns_witness :
    ∃ i ∈ List.range choices_data.length,
      (create_dropdown "N" 2 end_row "$B$2:$B$4").formula1 =
        "Choices." ++ sourceRangeOfCategory i ∧
      ∃ v ∈ (nthCat i).2,
        cellAt shipmentsCellList 2 (letterColumnIndex "N") = some v :=
  sample_rows_satisfy_dropdowns
    (create_dropdown "N" 2 end_row "$B$2:$B$4") (by decide)
    ⟨"N", 2, 1000⟩ (by decide) 2 (by decide)

/-- C7: the builder is deterministic and idempotent: whatever run-dependent
ambient state two runs observe (working directory, wall-clock time), they
construct identical workbooks - same sheets, same cell values, same
validation ranges and formulas - because every datum is hard-coded and the
builder consults nothing run-dependent. -/
theorem builder_deterministic :
    ∀ env₁ env₂ : RunEnv,
      create_bulk_shipments_template env₁ = create_bulk_shipments_template env₂ :=
  fun _ _ => rfl

/-- C8: refuted as stated.  The spreadsheet-library imports (source lines
6-11) execute at module load, before the `__main__` try/except at lines
307-315 is reached, so when the library is missing the run propagates the
ImportError uncaught and prints nothing: the install-hint arm of the
handler (first conjunct of the evaluation below, embedded as written) is
unreachable for exactly that scenario.  Only failures raised by the builder
call inside the try block are surfaced with their message and terminate
normally. -/
theorem missing_library_import_uncaught :
    (∀ msg : String, ∀ outcome : Except PyError Workbook,
      runScript (ImportStatus.failure msg) outcome = Except.error msg) ∧
    (∀ e : String,
      mainOutput (Except.error (PyError.importErr e)) =
        [ "❌ Missing required libraries. Please install them with:",
          "pip install pandas openpyxl",
          "Error: " ++ e ]) ∧
    (∀ e : String,
      mainOutput (Except.error (PyError.otherErr e)) =
        ["❌ Error creating template: " ++ e]) ∧
    (∀ outcome : Except PyError Workbook,
      runScript ImportStatus.ok outcome = Except.ok (mainOutput outcome)) :=
  ⟨fun _ _ => rfl, fun _ => rfl, fun _ => rfl, fun _ => rfl⟩

/-- C9: every dropdown validation on the Shipments sheet carries the fixed
rejection message: error title `Invalid Entry` and error body
`Please select a value from the dropdown list`. -/
theorem dropdown_error_messages :
    ∀ dv ∈ shipmentsValidations,
      dv.errorTitle = "Invalid Entry" ∧
      dv.error = "Please select a value from the dropdown list" := by
  decide

/-- Witness for C9 at the Client Email validation. -/
theorem dropdown_error_messages_witness :
    (create_dropdown "A" 2 end_row "$A$2:$A$4").errorTitle = "Invalid Entry" ∧
    (create_dropdown "A" 2 end_row "$A$2:$A$4").error =
      "Please select a value from the dropdown list" :=
  dropdown_error_messages (create_dropdown "A" 2 end_row "$A$2:$A$4") (by decide)

/-- C10: the Choices sheet holds exactly 11 category columns (letters A
through K), of which exactly the 6 at positions A, B, C, G, H, I (Client
Emails, Payment Methods, Cities, Package Descriptions, Package Values,
Large Order Options) are referenced by some dropdown validation formula;
the remaining 5 (Cairo Zones, Alexandria Zones, Giza Zones, Street
Examples, Building Details) are populated but never bound to any Shipments
column. -/
theorem unreferenced_choice_columns :
    choices_data.length = 11 ∧
    (List.range choices_data.length).map (fun i => get_column_letter (i + 1)) =
      ["A", "B", "C", "D", "E", "F", "G", "H", "I", "J", "K"] ∧
    (List.range choices_data.length).filter (fun i => categoryReferenced i) =
      [0, 1, 2, 6, 7, 8] ∧
    ((List.range choices_data.length).filter
        (fun i => categoryReferenced i)).map (fun i => get_column_letter (i + 1)) =
      ["A", "B", "C", "G", "H", "I"] ∧
    ((List.range choices_data.length).filter
        (fun i => categoryReferenced i)).map (fun i => (nthCat i).1) =
      [ "Client_Emails", "Payment_Methods", "Cities",
        "Package_Descriptions", "Package_Values", "Large_Order_Options" ] ∧
    ((List.range choices_data.length).filter
        (fun i => !categoryReferenced i)).map (fun i => (nthCat i).1) =
      [ "Cairo_Zones", "Alexandria_Zones", "Giza_Zones",
        "Street_Examples", "Building_Details" ] ∧
    (∀ i ∈ List.range choices_data.length, (nthCat i).2 ≠ []) := by
  decide

/-- Witness for C10 at position 3 (Cairo Zones): populated yet unbound. -/
theorem unreferenced_choice_columns_witness :
    (nthCat 3).2 ≠ [] :=
  unreferenced_choice_columns.2.2.2.2.2.2 3 (by decide)

end FlashExpress
